import Mathlib

/-!
A shallow embedding of the `cosmic-plus/node-ledger-wallet` library
(`src/index.js`, plus the earlier variant of the same module that carries the
liveness-polling loop and the explicit decorated-signature construction).

JavaScript values are embedded as follows: nullable module fields become
`Option`, thrown errors become `Except` / explicit result constructors, the
mutable module state becomes an explicit record threaded through each
operation, and asynchronous device behaviour is supplied as an explicit
trace/oracle argument, so every definition is executable.
-/

namespace LedgerWallet

/-- A JavaScript error value: its message and its optional `id` field
(the connect loop branches on `error.id === "U2FNotSupported"`). -/
structure JsError where
  message : String
  id : Option String := none
deriving DecidableEq

/-- The argument of `ledger.connect`: either an account number or an explicit
derivation path string (`@param [account=1] {Number|String}`). -/
inductive Account
  | num (n : Int)
  | str (s : String)
deriving DecidableEq

/-- `const BIP_PATH = "44'/148'"` from `src/index.js`. -/
def BIP_PATH : String := "44\x27/148\x27"

/-- `ledger.connect.path` from `src/index.js`: a number `n` maps to
`44'/148'/(n-1)'` (throwing when `n < 1`), a string has a leading `m/`
stripped (`account.replace` with an anchored, single-occurrence pattern).
It reads no session state: it is a pure function of its argument. -/
def connectPath : Account → Except JsError String
  | .num n =>
    if n < 1 then .error ⟨"Account number starts at 1.", none⟩
    else .ok (BIP_PATH ++ "/" ++ toString (n - 1) ++ "\x27")
  | .str s =>
    .ok (if "m/".data.isPrefixOf s.data
         then String.mk (s.data.drop 2) else s)

/-- JavaScript truthiness of a nullable string field: `null` and `""` are
falsy. -/
def truthyStr : Option String → Bool
  | none => false
  | some s => !(s == "")

/-- The public fields of the `ledger` module object in `src/index.js`
(`publicKey`, `path`, `version`, `multiOpsEnabled`, `transport`,
`application`); all start out `null`.  Transport and application instances
are represented by numeric handles. -/
structure Ledger where
  publicKey : Option String := none
  path : Option String := none
  version : Option String := none
  multiOpsEnabled : Option Bool := none
  transport : Option Nat := none
  application : Option Nat := none
deriving DecidableEq

/-- The module-level state of `src/index.js`: the `ledger` object plus the
`connection` and `disconnection` markers.  `connection` holds the identity of
the in-flight connect attempt (the promise object in JavaScript), made
observable here as a numeric attempt id drawn from `nextAttempt`;
`disconnection` records whether a disconnection promise is pending. -/
structure ModuleState where
  ledger : Ledger := {}
  connection : Option Nat := none
  disconnection : Bool := false
  nextAttempt : Nat := 0
deriving DecidableEq

/-- `softReset` from `src/index.js`: clears the in-flight attempt marker, the
session path and the public key, and nothing else. -/
def softReset (s : ModuleState) : ModuleState :=
  { s with connection := none,
           ledger := { s.ledger with path := none, publicKey := none } }

/-- `reset` from `src/index.js`: clears `connection` and every `libValues`
field of the ledger object (`transport`, `application`, `path`, `version`,
`publicKey`, `multiOpsEnabled`). -/
def reset (s : ModuleState) : ModuleState :=
  { s with connection := none, ledger := {} }

/-- The tail of `ledger.connect`: reuse the in-flight attempt when `connection`
is truthy, otherwise start a fresh attempt (in JavaScript, assign the new
promise to `connection`); the returned `Nat` is the identity of the attempt
the caller awaits. -/
def startAttempt (s : ModuleState) : ModuleState × Nat :=
  match s.connection with
  | some a => (s, a)
  | none =>
    ({ s with connection := some s.nextAttempt,
              nextAttempt := s.nextAttempt + 1 }, s.nextAttempt)

/-- The synchronous part of `ledger.connect` from `src/index.js`: resolve the
path (which may throw), then — after `if (disconnection) await disconnection`,
which completes without further state change in this sequential model — soft
reset when a truthy session path differs from the target (`if (ledger.path &&
ledger.path !== path) softReset()`), and via `startAttempt` either reuse the
in-flight attempt or start a fresh one (`if (!connection) connection =
connect(path); return connection`).  Returns the updated state together with
the id of the attempt the caller awaits; the attempt's retry loop itself is
modelled separately by `connectLoop`. -/
def ledgerConnect (s : ModuleState) (account : Account) :
    Except JsError (ModuleState × Nat) :=
  match connectPath account with
  | .error e => .error e
  | .ok path =>
    .ok (startAttempt
      (if truthyStr s.ledger.path ∧ s.ledger.path ≠ some path
       then softReset s else s))

/-! ### Signing -/

/-- One request sent to the device's signing endpoint
(`application.signTransaction(ledger.path, transaction.signatureBase())`):
the session path as stored (still `null` when no handshake completed) and the
signature base bytes of the transaction. -/
structure SignRequest where
  path : Option String
  payload : List Nat
deriving DecidableEq

/-- A decorated signature as attached to the transaction: the signature hint
derived from the signer's public key plus the raw signature bytes. -/
structure DecoratedSignature where
  hint : String
  signature : List Nat
deriving DecidableEq

/-- The caller-supplied transaction object, at the boundary the library uses:
`signatureBase()` (its canonical signing payload) and the mutable
`signatures` list. -/
structure Transaction where
  base : List Nat
  signatures : List DecoratedSignature
deriving DecidableEq

/-- What a `ledger.sign` call produces: the value returned (or error thrown),
the caller's transaction object after the call (the JavaScript code mutates it
in place), and the list of signing requests issued to the device. -/
structure SignOutcome where
  result : Except JsError Transaction
  txAfter : Transaction
  requests : List SignRequest

/-- The error thrown by `ledger.sign` when no wallet is connected. -/
def notConnectedError : JsError := ⟨"No ledger wallet connected.", none⟩

/-- `ledger.sign` from `src/index.js` (and, identically up to the SDK
boundary, the earlier variant's `ledger.sign`): throw `notConnectedError`
when `ledger.publicKey` is falsy, otherwise send one signing request to the
device and, on success, append one decorated signature — the hint computed by
the host SDK from the stored public key, plus the raw signature bytes
returned by the device — to the transaction's signature list, returning the
mutated object.  A device error is surfaced directly, with no second request.
`hintOf` is the host SDK's signature-hint helper (`Keypair.signatureHint`,
used by `addSignature` in `src/index.js`); `device` is the signing
endpoint.  `signConnected` is the body after the connectedness guard. -/
def signConnected (hintOf : String → String)
    (device : SignRequest → Except JsError (List Nat))
    (path : Option String) (pk : String) (tx : Transaction) : SignOutcome :=
  match device ⟨path, tx.base⟩ with
  | .error e => ⟨.error e, tx, [⟨path, tx.base⟩]⟩
  | .ok sig =>
    ⟨.ok { tx with signatures := tx.signatures ++ [⟨hintOf pk, sig⟩] },
     { tx with signatures := tx.signatures ++ [⟨hintOf pk, sig⟩] },
     [⟨path, tx.base⟩]⟩

def sign (hintOf : String → String)
    (device : SignRequest → Except JsError (List Nat))
    (s : ModuleState) (tx : Transaction) : SignOutcome :=
  match s.ledger.publicKey with
  | none => ⟨.error notConnectedError, tx, []⟩
  | some pk =>
    if pk = "" then ⟨.error notConnectedError, tx, []⟩
    else signConnected hintOf device s.ledger.path pk tx

/-! ### Disconnection -/

/-- `closeTransport` from `src/index.js`: awaits `transport.close()` and
catches any failure (`console.error`), so the returned promise always
resolves; the swallowed error is returned here as the logged value. -/
def closeTransport (closeResult : Except JsError Unit) :
    Except JsError Unit × Option JsError :=
  match closeResult with
  | .ok _ => (.ok (), none)
  | .error e => (.ok (), some e)

/-- The synchronous prefix of `ledger.disconnect` from `src/index.js`: the
transport handle is saved into a local and `reset()` runs — clearing
`connection` and all six public ledger fields — before anything is
awaited. -/
def disconnectPrefix (s : ModuleState) : ModuleState := reset s

/-- What a `ledger.disconnect` call produces. -/
structure DisconnectOutcome where
  state : ModuleState
  result : Except JsError Unit
  loggedClose : Option JsError
  firedOnDisconnect : Bool

/-- `ledger.disconnect` from `src/index.js`: run the synchronous prefix, then
when a transport handle existed, await `closeTransport` (whose failures are
swallowed and logged) and fire `onDisconnect`; otherwise await any pending
disconnection.  Finally clear the `disconnection` marker.  `closeResult` is
the outcome of the underlying `transport.close()` call. -/
def disconnect (s : ModuleState) (closeResult : Except JsError Unit) :
    DisconnectOutcome :=
  let transport := s.ledger.transport
  let s1 := disconnectPrefix s
  match transport with
  | some _ =>
    let c := closeTransport closeResult
    { state := { s1 with disconnection := false },
      result := c.1, loggedClose := c.2, firedOnDisconnect := true }
  | none =>
    { state := { s1 with disconnection := false },
      result := .ok (), loggedClose := none, firedOnDisconnect := false }

/-! ### The connect retry loop of `src/index.js`

The body of `async function connect (path)`.  Each `while` iteration records
`startTime`, runs the handshake steps (create/reuse transport, create/reuse
application, `getPublicKey`, `getAppConfiguration`), and handles a throw in
the `catch` block: for an `U2FNotSupported` error the iframe-cleanup line of
the block itself throws before anything else happens (see `cleanupError`);
for every other error the block compares `errorTime - startTime` against
25000 ms — an error observed within 25 s of the **iteration** start
soft-resets and rethrows, an error observed 25 s or later is assumed to be a
transport timeout and the loop retries.  Device behaviour is supplied as a
trace with one entry per iteration. -/

/-- How one handshake iteration goes: full success (with the fields the two
device calls assign onto `ledger`), or a throw from `Transport.create`, from
`getPublicKey`, or from `getAppConfiguration` (the last one after
`getPublicKey`'s result was already assigned).  `elapsed` is
`errorTime - startTime` in milliseconds for the throwing iteration. -/
inductive StepOutcome
  | success (pk version : String) (multiOps : Bool)
  | createFailed (e : JsError) (elapsed : Nat)
  | publicKeyFailed (e : JsError) (elapsed : Nat)
  | configFailed (pk : String) (e : JsError) (elapsed : Nat)
deriving DecidableEq

/-- The state the retry loop works on: the `ledger` fields, the truthiness of
the `connection` marker as the loop's `while` condition reads it, and a
counter for fresh transport/application handles. -/
structure LoopState where
  ledger : Ledger
  connActive : Bool
  nextHandle : Nat
deriving DecidableEq

/-- `if (!ledger.transport || env.isNode) ledger.transport = await
Transport.create()`. -/
def openTransport (isNode : Bool) (s : LoopState) : LoopState :=
  if s.ledger.transport = none ∨ isNode then
    { s with ledger := { s.ledger with transport := some s.nextHandle },
             nextHandle := s.nextHandle + 1 }
  else s

/-- `if (!ledger.application || env.isNode) ledger.application = new
StellarApp(ledger.transport)`. -/
def openApplication (isNode : Bool) (s : LoopState) : LoopState :=
  if s.ledger.application = none ∨ isNode then
    { s with ledger := { s.ledger with application := some s.nextHandle },
             nextHandle := s.nextHandle + 1 }
  else s

/-- `softReset()` as seen from inside the attempt: `connection = null` makes
the loop's condition falsy, and the session path and public key are
cleared. -/
def softResetAttempt (s : LoopState) : LoopState :=
  { s with connActive := false,
           ledger := { s.ledger with path := none, publicKey := none } }

/-- The partial `ledger` assignments that survive a throwing iteration:
nothing for a `Transport.create` throw; the freshly opened (or reused)
handles for a `getPublicKey` throw; handles plus the assigned public key for
a `getAppConfiguration` throw. -/
def stepProgress (isNode : Bool) (o : StepOutcome) (s : LoopState) :
    LoopState :=
  match o with
  | .success _ _ _ => s
  | .createFailed _ _ => s
  | .publicKeyFailed _ _ => openApplication isNode (openTransport isNode s)
  | .configFailed pk _ _ =>
    let s1 := openApplication isNode (openTransport isNode s)
    { s1 with ledger := { s1.ledger with publicKey := some pk } }

/-- The error and its `errorTime - startTime`, for throwing outcomes. -/
def stepErrorInfo : StepOutcome → Option (JsError × Nat)
  | .success _ _ _ => none
  | .createFailed e elapsed => some (e, elapsed)
  | .publicKeyFailed e elapsed => some (e, elapsed)
  | .configFailed _ e elapsed => some (e, elapsed)

/-- The result of one iteration of the `while` body. -/
inductive IterOutcome
  | connected (s : LoopState)
  | thrown (e : JsError) (s : LoopState)
  | retry (s : LoopState)
deriving DecidableEq

/-- The error raised by the `catch` block's own iframe-cleanup line,
`document.querySelector("iframe[src^=chrome-extension/*/u2f-comms.html]")`:
in Node `document` is undefined, so the line throws a `ReferenceError`; in a
browser the unquoted attribute value (containing `/`, `*` and `.`) is not a
valid CSS selector, so `querySelector` throws a `SyntaxError` DOMException.
The message texts here stand in for the runtime-specific ones; what matters
is that the thrown value is a fresh error carrying no `id` field, distinct
from the original `U2FNotSupported` error. -/
def cleanupError (isNode : Bool) : JsError :=
  if isNode then ⟨"document is not defined", none⟩
  else ⟨"not a valid selector", none⟩

/-- The `catch` block of the loop.  When `error.id === "U2FNotSupported"` the
code first tries to remove an injected `u2f-comms` iframe; that cleanup line
itself throws (`cleanupError`) before the timing check is reached, so the
attempt aborts at once — at any elapsed time, with no soft reset — and the
cleanup error, not the original one, propagates to the awaiting caller.  For
every other error, quoting the source comment: "If error happened within 25
seconds, we throw. Else, we assume a timeout." — within 25 s of the
iteration's `startTime` the attempt soft-resets and the error propagates; at
25 s or later the loop retries (with no delay and no wrapping of the
error). -/
def handleError (isNode : Bool) (e : JsError) (elapsed : Nat)
    (s : LoopState) : IterOutcome :=
  if e.id = some "U2FNotSupported" then .thrown (cleanupError isNode) s
  else if elapsed < 25000 then .thrown e (softResetAttempt s)
  else .retry s

/-- One iteration of the `try`/`catch` body for the target `path`: on success
all device-returned fields are assigned onto `ledger` and `ledger.path = path`
is set (`onConnect` fires); on a throw, the assignments made before the throw
survive and the `catch` block decides between rethrow and retry. -/
def runStep (isNode : Bool) (path : String) (o : StepOutcome)
    (s : LoopState) : IterOutcome :=
  match o with
  | .success pk ver mo =>
    let s1 := openApplication isNode (openTransport isNode s)
    .connected { s1 with ledger := { s1.ledger with
      publicKey := some pk, version := some ver,
      multiOpsEnabled := some mo, path := some path } }
  | .createFailed e elapsed =>
    handleError isNode e elapsed
      (stepProgress isNode (.createFailed e elapsed) s)
  | .publicKeyFailed e elapsed =>
    handleError isNode e elapsed
      (stepProgress isNode (.publicKeyFailed e elapsed) s)
  | .configFailed pk e elapsed =>
    handleError isNode e elapsed
      (stepProgress isNode (.configFailed pk e elapsed) s)

/-- How a whole connect attempt ends, relative to the supplied trace:
`finished` when the `while` condition became falsy (public key obtained, or
the attempt was cancelled/soft-reset), `thrown` when an iteration rethrew,
`pending` when the trace ran out with the loop still live. -/
inductive ConnectResult
  | finished (s : LoopState)
  | thrown (e : JsError) (s : LoopState)
  | pending (s : LoopState)
deriving DecidableEq

/-- `while (connection && !ledger.publicKey) { ... }` from
`async function connect (path)`, driven by one `StepOutcome` per
iteration. -/
def connectLoop (isNode : Bool) (path : String) :
    List StepOutcome → LoopState → ConnectResult
  | [], s =>
    if s.connActive && !truthyStr s.ledger.publicKey
    then .pending s else .finished s
  | o :: rest, s =>
    if s.connActive && !truthyStr s.ledger.publicKey then
      match runStep isNode path o s with
      | .connected s1 => connectLoop isNode path rest s1
      | .thrown e s1 => .thrown e s1
      | .retry s1 => connectLoop isNode path rest s1
    else .finished s

/-! ### The liveness monitor of the earlier module variant

`polling`, `refreshAppConfiguration` and the `disconnect`/`reset` they invoke
live in the earlier variant of the module (the unnamed source file); the
current `src/index.js` has no monitor. -/

/-- The `ledger` fields of the earlier variant; its `reset` clears
`transport`, `application`, `path`, `account`, `index`, `internalFlag`,
`version`, `publicKey` and `multiOpsEnabled`. -/
structure LedgerP where
  transport : Option Nat := none
  application : Option Nat := none
  path : Option String := none
  account : Option Int := none
  index : Option Int := none
  internalFlag : Option Bool := none
  version : Option String := none
  publicKey : Option String := none
  multiOpsEnabled : Option Bool := none
deriving DecidableEq

/-- The module state the monitor touches: the ledger object, the `connection`
marker, the `ping` liveness flag and the `isPolling` guard. -/
structure PollState where
  ledger : LedgerP := {}
  connection : Option Nat := none
  ping : Bool := false
  isPolling : Bool := false
deriving DecidableEq

/-- `const pollingDelay = 1000`: the fixed wait, in milliseconds, between
issuing the configuration refresh and checking the liveness flag. -/
def pollingDelay : Nat := 1000

/-- How one `getAppConfiguration()` call ends: success (with the fields it
assigns onto `ledger`) or a throw whose `currentLock` field the handler
inspects. -/
inductive RefreshOutcome
  | ok (version : String) (multiOps : Bool)
  | err (currentLock : Option String)
deriving DecidableEq

/-- `refreshAppConfiguration` from the earlier variant: on success assign the
configuration onto `ledger` and set `ping = true`; on failure set
`ping = true` exactly when `error.currentLock === "signTransaction"` (the
device is busy signing — a benign state, not a disconnect). -/
def refreshAppConfiguration (o : RefreshOutcome) (s : PollState) : PollState :=
  match o with
  | .ok ver mo =>
    { s with
      ledger := { s.ledger with
        version := some ver, multiOpsEnabled := some mo },
      ping := true }
  | .err lock =>
    if lock = some "signTransaction" then { s with ping := true } else s

/-- `ledger.disconnect` of the earlier variant: clear the `isPolling` guard;
when a transport handle exists, close it and — via
`disconnection.then(onDisconnect)`, which runs before the monitor's `await`
resumes — fire `onDisconnect`, whose `reset()` clears `connection` and every
ledger field.  With no transport it does nothing further. -/
def disconnectP (s : PollState) : PollState :=
  let s1 := { s with isPolling := false }
  match s1.ledger.transport with
  | none => s1
  | some _ => { s1 with connection := none, ledger := {} }

/-- The liveness verdict one cycle reaches when the refresh resolved within
the `pollingDelay` wait (`some o`) or was still unresolved at the check
(`none`): alive iff, in time, the refresh succeeded or failed
busy-signing. -/
def cyclePing (env : Option RefreshOutcome) : Bool :=
  match env with
  | some (.ok _ _) => true
  | some (.err lock) => lock = some "signTransaction"
  | none => false

/-- `async function polling ()` of the earlier variant, keyed to
`thisApplication` — the application handle captured when the loop started.
Each cycle of `while (thisApplication === ledger.application)`: set
`ping = false`, issue `refreshAppConfiguration()` without awaiting it,
`await timeout(pollingDelay)`, then `if (ping === false) await
ledger.disconnect()`.  The trace has one entry per cycle telling whether and
how the refresh resolved within the wait; a refresh still unresolved at the
check contributes nothing to that cycle.  Returns the final state plus, per
executed cycle, whether that cycle triggered `disconnect()`. -/
def polling (keyed : Option Nat) :
    List (Option RefreshOutcome) → PollState → PollState × List Bool
  | [], s => (s, [])
  | env :: rest, s =>
    if s.ledger.application = keyed then
      let s1 := { s with ping := false }
      let s2 := match env with
        | some o => refreshAppConfiguration o s1
        | none => s1
      let disc := !s2.ping
      let s3 := if disc then disconnectP s2 else s2
      let res := polling keyed rest s3
      (res.1, disc :: res.2)
    else (s, [])

/-- The tail of the earlier variant's `onConnect`: `if (!isPolling)
polling()` — a monitor is started only when none is running, and `polling()`
raises the `isPolling` guard before its first suspension point.  The `Bool`
reports whether a new monitor loop was started. -/
def startPolling (envs : List (Option RefreshOutcome)) (s : PollState) :
    PollState × List Bool × Bool :=
  if s.isPolling then (s, [], false)
  else
    let s1 := { s with isPolling := true }
    let res := polling s1.ledger.application envs s1
    (res.1, res.2, true)

/-! ## Theorems about the claims -/

/-- C3: the path resolver maps every integer account `n ≥ 1` to
`44'/148'/(n-1)'`, fails with the invalid-account error for every `n < 1`,
and for every string account strips one leading `m/` root marker and returns
the rest unchanged.  Purity holds by construction: `connectPath` takes no
session state and returns only the path. -/
theorem C3_path_resolver :
    (∀ n : Int, 1 ≤ n →
      connectPath (.num n) =
        .ok ("44\x27/148\x27/" ++ toString (n - 1) ++ "\x27"))
  ∧ (∀ n : Int, n < 1 →
      connectPath (.num n) = .error ⟨"Account number starts at 1.", none⟩)
  ∧ (∀ s : String, connectPath (.str ("m/" ++ s)) = .ok s)
  ∧ (∀ s : String, ¬ "m/".data.isPrefixOf s.data →
      connectPath (.str s) = .ok s) := by
  refine ⟨fun n hn => ?_, fun n hn => ?_, fun s => ?_, fun s h => ?_⟩
  · simp only [connectPath, BIP_PATH]
    rw [if_neg (by omega : ¬ n < 1),
      show ("44\x27/148\x27" : String) ++ "/" = "44\x27/148\x27/" from rfl]
  · simp only [connectPath]
    rw [if_pos hn]
  · have hpre : "m/".data.isPrefixOf ("m/" ++ s).data = true := by
      show List.isPrefixOf ('m' :: '/' :: []) ('m' :: '/' :: s.data) = true
      simp [List.isPrefixOf_cons₂]
    show Except.ok
      (if "m/".data.isPrefixOf ("m/" ++ s).data
       then String.mk (("m/" ++ s).data.drop 2) else ("m/" ++ s)) = .ok s
    rw [if_pos hpre]
    rfl
  · simp [connectPath, h]

/-- C3, instantiated: accounts 3 and 0 and the explicit path `m/0'`. -/
theorem C3_path_resolver_witness :
    connectPath (.num 3) = .ok "44\x27/148\x27/2\x27"
  ∧ connectPath (.num 0) = .error ⟨"Account number starts at 1.", none⟩
  ∧ connectPath (.str "m/0\x27") = .ok "0\x27"
  ∧ connectPath (.str "48\x27/12\x27") = .ok "48\x27/12\x27" := by
  refine ⟨?_, C3_path_resolver.2.1 0 (by decide), ?_, ?_⟩
  · rw [C3_path_resolver.1 3 (by decide)]
    simp only [Except.ok.injEq]
    decide
  · exact C3_path_resolver.2.2.1 "0\x27"
  · exact C3_path_resolver.2.2.2 "48\x27/12\x27" (by decide)

/-- C4: while an attempt is in flight (`connection` set) and the session path
is still unset (the handshake has not completed) or already equals the
resolved target path, a second `ledger.connect` call returns the very same
attempt id with the state unchanged — no second handshake is started, so both
callers await one shared result. -/
theorem C4_shared_attempt (s : ModuleState) (a : Nat) (p : String)
    (acc : Account)
    (hconn : s.connection = some a)
    (hpath : connectPath acc = .ok p)
    (hsame : s.ledger.path = none ∨ s.ledger.path = some p) :
    ledgerConnect s acc = .ok (s, a) := by
  have hcond : ¬ (truthyStr s.ledger.path ∧ s.ledger.path ≠ some p) := by
    rcases hsame with h | h <;> simp [h, truthyStr]
  unfold ledgerConnect
  rw [hpath]
  show Except.ok (startAttempt
    (if truthyStr s.ledger.path ∧ s.ledger.path ≠ some p
     then softReset s else s)) = _
  rw [if_neg hcond]
  unfold startAttempt
  rw [hconn]

/-- C4, instantiated: a state with attempt 7 in flight and no session path. -/
theorem C4_shared_attempt_witness :
    ledgerConnect { connection := some 7 } (.num 1) =
      .ok ({ connection := some 7 }, 7) :=
  C4_shared_attempt { connection := some 7 } 7 "44\x27/148\x27/0\x27"
    (.num 1) rfl rfl (Or.inl rfl)

/-- C5: when a truthy session path is set and differs from the resolved
target, `ledger.connect` performs the soft reset — clearing exactly the
in-flight attempt marker, the session path and the public key — and starts a
fresh attempt; the transport and application handles (and the version and
multiOpsEnabled fields) are left unchanged, and the transport is not
closed. -/
theorem C5_soft_reset_frame (s : ModuleState) (q p : String) (acc : Account)
    (hpath : connectPath acc = .ok p) (hq : s.ledger.path = some q)
    (hq0 : q ≠ "") (hne : q ≠ p) :
    ledgerConnect s acc = .ok
      ({ ledger := { publicKey := none, path := none,
                     version := s.ledger.version,
                     multiOpsEnabled := s.ledger.multiOpsEnabled,
                     transport := s.ledger.transport,
                     application := s.ledger.application },
         connection := some s.nextAttempt,
         disconnection := s.disconnection,
         nextAttempt := s.nextAttempt + 1 }, s.nextAttempt) := by
  have hcond : truthyStr s.ledger.path ∧ s.ledger.path ≠ some p := by
    simp [hq, truthyStr, hq0, hne]
  unfold ledgerConnect
  rw [hpath]
  show Except.ok (startAttempt
    (if truthyStr s.ledger.path ∧ s.ledger.path ≠ some p
     then softReset s else s)) = _
  rw [if_pos hcond]
  rfl

/-- C5, instantiated: switching from path `old` to account 1 keeps the
transport and application handles while clearing path, public key and the
attempt marker. -/
theorem C5_soft_reset_frame_witness :
    ledgerConnect
      { ledger := { publicKey := some "GKEY", path := some "old",
                    version := some "3.0.0", multiOpsEnabled := some true,
                    transport := some 5, application := some 6 },
        connection := some 3, disconnection := false, nextAttempt := 10 }
      (.num 1) =
    .ok ({ ledger := { publicKey := none, path := none,
                       version := some "3.0.0", multiOpsEnabled := some true,
                       transport := some 5, application := some 6 },
           connection := some 10, disconnection := false,
           nextAttempt := 11 }, 10) :=
  C5_soft_reset_frame _ "old" "44\x27/148\x27/0\x27" (.num 1)
    rfl rfl (by decide) (by decide)

/-- C6: for every transaction, calling `sign` while no public key material is
set fails with `notConnectedError`, issues no device request, and leaves the
caller's transaction object unmutated. -/
theorem C6_sign_not_connected (hintOf : String → String)
    (device : SignRequest → Except JsError (List Nat))
    (s : ModuleState) (tx : Transaction)
    (h : s.ledger.publicKey = none) :
    sign hintOf device s tx = ⟨.error notConnectedError, tx, []⟩ := by
  unfold sign
  rw [h]

/-- C6, instantiated: the initial state with a cooperative device. -/
theorem C6_sign_not_connected_witness :
    sign (fun pk => pk) (fun _ => .ok [9, 9]) {} ⟨[1, 2, 3], []⟩ =
      ⟨.error notConnectedError, ⟨[1, 2, 3], []⟩, []⟩ :=
  C6_sign_not_connected (fun pk => pk) (fun _ => .ok [9, 9]) {}
    ⟨[1, 2, 3], []⟩ rfl

/-- C7: with a session established (truthy public key), `sign` issues exactly
one signing request; on success it appends exactly one decorated signature —
the hint derived from the stored public key plus the raw signature bytes
returned by the device — to the transaction's signature list, and its return
value is that same mutated object; on a device error (user rejection or
otherwise) the error is surfaced with no further request and no signature
appended. -/
theorem C7_sign_appends_one (hintOf : String → String)
    (device : SignRequest → Except JsError (List Nat))
    (s : ModuleState) (tx : Transaction) (pk : String)
    (hpk : s.ledger.publicKey = some pk) (hpk0 : pk ≠ "") :
    (∀ sig, device ⟨s.ledger.path, tx.base⟩ = .ok sig →
      sign hintOf device s tx =
        ⟨.ok { tx with signatures := tx.signatures ++ [⟨hintOf pk, sig⟩] },
         { tx with signatures := tx.signatures ++ [⟨hintOf pk, sig⟩] },
         [⟨s.ledger.path, tx.base⟩]⟩)
  ∧ (∀ e, device ⟨s.ledger.path, tx.base⟩ = .error e →
      sign hintOf device s tx = ⟨.error e, tx, [⟨s.ledger.path, tx.base⟩]⟩) := by
  constructor
  · intro sig hdev
    unfold sign
    rw [hpk]
    show (if pk = "" then (⟨.error notConnectedError, tx, []⟩ : SignOutcome)
          else signConnected hintOf device s.ledger.path pk tx) = _
    rw [if_neg hpk0]
    unfold signConnected
    rw [hdev]
  · intro e hdev
    unfold sign
    rw [hpk]
    show (if pk = "" then (⟨.error notConnectedError, tx, []⟩ : SignOutcome)
          else signConnected hintOf device s.ledger.path pk tx) = _
    rw [if_neg hpk0]
    unfold signConnected
    rw [hdev]

/-- C7, instantiated: a connected session whose device returns signature
bytes `[7, 8]` for the pending payload; exactly one decorated signature is
appended. -/
theorem C7_sign_appends_one_witness :
    sign (fun pk => pk ++ "-hint")
      (fun _ => .ok [7, 8])
      { ledger := { publicKey := some "GKEY", path := some "44\x27/148\x27/0\x27" } }
      ⟨[1, 2], [⟨"old", [5]⟩]⟩ =
      ⟨.ok ⟨[1, 2], [⟨"old", [5]⟩, ⟨"GKEY-hint", [7, 8]⟩]⟩,
       ⟨[1, 2], [⟨"old", [5]⟩, ⟨"GKEY-hint", [7, 8]⟩]⟩,
       [⟨some "44\x27/148\x27/0\x27", [1, 2]⟩]⟩ :=
  (C7_sign_appends_one (fun pk => pk ++ "-hint") (fun _ => .ok [7, 8])
    { ledger := { publicKey := some "GKEY", path := some "44\x27/148\x27/0\x27" } }
    ⟨[1, 2], [⟨"old", [5]⟩]⟩ "GKEY" rfl (by decide)).1 [7, 8] rfl

/-- C9: `disconnect` never propagates an error to its caller — its result is
`ok` for every starting state and every outcome of `transport.close()`; on
the pristine state (no connection, no prior attempt) it is a no-op that
leaves the state unchanged; and a failing `close()` is logged exactly when a
transport handle existed, never rethrown. -/
theorem C9_disconnect_never_throws (s : ModuleState)
    (closeResult : Except JsError Unit) (e : JsError) :
    (disconnect s closeResult).result = .ok ()
  ∧ (disconnect {} closeResult).state = {}
  ∧ (disconnect {} closeResult).result = .ok ()
  ∧ (disconnect s (.error e)).loggedClose =
      (if s.ledger.transport = none then none else some e) := by
  refine ⟨?_, rfl, rfl, ?_⟩
  · unfold disconnect closeTransport
    cases h : s.ledger.transport <;> cases closeResult <;> simp
  · unfold disconnect closeTransport
    cases h : s.ledger.transport <;> simp [h]

/-- C10: the synchronous prefix of `disconnect` — which runs before the
transport's `close()` is awaited — already clears every public session field
(path, public key, transport, application, version, multiOpsEnabled) and the
in-flight-attempt marker; consequently any `sign` call issued after
`disconnect` started, even while the close is still pending or after it
failed, fails with `notConnectedError`, mutates nothing and issues no device
request. -/
theorem C10_disconnect_clears_before_close (s : ModuleState)
    (hintOf : String → String)
    (device : SignRequest → Except JsError (List Nat)) (tx : Transaction) :
    (disconnectPrefix s).ledger = {}
  ∧ (disconnectPrefix s).connection = none
  ∧ sign hintOf device (disconnectPrefix s) tx =
      ⟨.error notConnectedError, tx, []⟩ := by
  refine ⟨rfl, rfl, ?_⟩
  unfold sign disconnectPrefix reset
  rfl

/-- C1 counterexample.  The claim says a transient (non-fatal) handshake
failure is absorbed and retried, and only once a ~25 s budget measured from
the start of the attempt is exceeded does the attempt stop, soft-reset, and
surface the last error.  The code does the opposite: (first conjunct) a
transient transport failure only 1 s into the very first iteration is *not*
retried — the attempt soft-resets and surfaces that raw error at once; and
(second conjunct) two consecutive failures taking 26 s each — 52 s of wall
clock from attempt start — are both absorbed and the loop is still retrying,
with no timeout wrapping of any error. -/
theorem C1_counterexample :
    (connectLoop false "44\x27/148\x27/0\x27"
        [.createFailed ⟨"boom", none⟩ 1000]
        ⟨{}, true, 0⟩ =
      .thrown ⟨"boom", none⟩ ⟨{}, false, 0⟩)
  ∧ (connectLoop false "44\x27/148\x27/0\x27"
        [.createFailed ⟨"boom", none⟩ 26000,
         .createFailed ⟨"boom", none⟩ 26000]
        ⟨{}, true, 0⟩ =
      .pending ⟨{}, true, 0⟩) :=
  ⟨rfl, rfl⟩

/-- C1 amended: each iteration of the connect loop measures
`errorTime - startTime` from its *own* start; for a transient failure — one
whose error id is not the fatal `U2FNotSupported` — a failure observed less
than 25 s after the iteration started soft-resets the attempt (clearing the
attempt marker, path and public key) and propagates that error, unwrapped, to
the caller, while a failure observed 25 s or later is assumed to be a
transport timeout and is absorbed — the loop retries immediately, with no
delay.  No overall budget spans iterations and no timeout-error wrapping
exists.  (`U2FNotSupported` errors never reach this rule: the catch block's
own iframe cleanup throws first.) -/
theorem C1_per_iteration_timing (isNode : Bool) (path : String)
    (o : StepOutcome) (rest : List StepOutcome) (s : LoopState)
    (e : JsError) (elapsed : Nat)
    (hact : s.connActive = true)
    (hpk : truthyStr s.ledger.publicKey = false)
    (herr : stepErrorInfo o = some (e, elapsed))
    (hid : e.id ≠ some "U2FNotSupported") :
    connectLoop isNode path (o :: rest) s =
      if elapsed < 25000
      then .thrown e (softResetAttempt (stepProgress isNode o s))
      else connectLoop isNode path rest (stepProgress isNode o s) := by
  have hcond : (s.connActive && !truthyStr s.ledger.publicKey) = true := by
    rw [hact, hpk]
    rfl
  cases o with
  | success pk ver mo => simp [stepErrorInfo] at herr
  | createFailed e2 el2 =>
    simp only [stepErrorInfo, Option.some.injEq, Prod.mk.injEq] at herr
    obtain ⟨he, hel⟩ := herr
    subst he
    subst hel
    by_cases hlt : el2 < 25000 <;>
      simp [connectLoop, hcond, runStep, handleError, hlt, hid]
  | publicKeyFailed e2 el2 =>
    simp only [stepErrorInfo, Option.some.injEq, Prod.mk.injEq] at herr
    obtain ⟨he, hel⟩ := herr
    subst he
    subst hel
    by_cases hlt : el2 < 25000 <;>
      simp [connectLoop, hcond, runStep, handleError, hlt, hid]
  | configFailed pk e2 el2 =>
    simp only [stepErrorInfo, Option.some.injEq, Prod.mk.injEq] at herr
    obtain ⟨he, hel⟩ := herr
    subst he
    subst hel
    by_cases hlt : el2 < 25000 <;>
      simp [connectLoop, hcond, runStep, handleError, hlt, hid]

/-- C1 amended, instantiated: a 26 s transient transport failure is absorbed
and the loop goes on retrying. -/
theorem C1_per_iteration_timing_witness :
    connectLoop false "44\x27/148\x27/0\x27"
      [.createFailed ⟨"x", none⟩ 26000] ⟨{}, true, 0⟩ =
    .pending ⟨{}, true, 0⟩ := by
  rw [C1_per_iteration_timing false "44\x27/148\x27/0\x27"
    (.createFailed ⟨"x", none⟩ 26000) [] ⟨{}, true, 0⟩ ⟨"x", none⟩ 26000
    rfl rfl rfl (by decide)]
  rfl

/-- C2 counterexample.  The claim says an `U2FNotSupported` handshake failure
propagates *that error* to the caller immediately and aborts the attempt.  In
the code the catch block's own iframe-cleanup line throws first (invalid CSS
selector in browsers, undefined `document` in Node), so the attempt does
abort on the first iteration — but what reaches the caller is the cleanup
error, not the `U2FNotSupported` error, no soft reset having run (the
attempt marker stays truthy); the second conjunct records that the surfaced
error differs from the device's error. -/
theorem C2_counterexample :
    (connectLoop false "44\x27/148\x27/0\x27"
        [.createFailed ⟨"u2f", some "U2FNotSupported"⟩ 1000]
        ⟨{}, true, 0⟩ =
      .thrown (cleanupError false) ⟨{}, true, 0⟩)
  ∧ cleanupError false ≠ ⟨"u2f", some "U2FNotSupported"⟩ :=
  ⟨rfl, by decide⟩

/-- C2 amended: a handshake failure carrying `error.id = "U2FNotSupported"`
never reaches the 25 s retry rule — the catch block's iframe-cleanup line
itself throws before the timing check, so the attempt aborts on that very
iteration at any elapsed time, runs no retry, performs no soft reset (the
attempt marker, path and public key are untouched; partial handshake
assignments survive), and surfaces the cleanup error — which carries no `id`
field and is thus not the original device error — to the caller. -/
theorem C2_u2f_aborts_with_cleanup_error (isNode : Bool) (path : String)
    (o : StepOutcome) (rest : List StepOutcome) (s : LoopState)
    (e : JsError) (elapsed : Nat)
    (hact : s.connActive = true)
    (hpk : truthyStr s.ledger.publicKey = false)
    (herr : stepErrorInfo o = some (e, elapsed))
    (hid : e.id = some "U2FNotSupported") :
    connectLoop isNode path (o :: rest) s =
      .thrown (cleanupError isNode) (stepProgress isNode o s)
  ∧ (cleanupError isNode).id = none := by
  have hcond : (s.connActive && !truthyStr s.ledger.publicKey) = true := by
    rw [hact, hpk]
    rfl
  refine ⟨?_, by cases isNode <;> rfl⟩
  cases o with
  | success pk ver mo => simp [stepErrorInfo] at herr
  | createFailed e2 el2 =>
    simp only [stepErrorInfo, Option.some.injEq, Prod.mk.injEq] at herr
    obtain ⟨he, hel⟩ := herr
    subst he
    subst hel
    simp [connectLoop, hcond, runStep, handleError, hid]
  | publicKeyFailed e2 el2 =>
    simp only [stepErrorInfo, Option.some.injEq, Prod.mk.injEq] at herr
    obtain ⟨he, hel⟩ := herr
    subst he
    subst hel
    simp [connectLoop, hcond, runStep, handleError, hid]
  | configFailed pk e2 el2 =>
    simp only [stepErrorInfo, Option.some.injEq, Prod.mk.injEq] at herr
    obtain ⟨he, hel⟩ := herr
    subst he
    subst hel
    simp [connectLoop, hcond, runStep, handleError, hid]

/-- C2 amended, instantiated: even an `U2FNotSupported` failure observed 26 s
into its iteration (which the generic rule would have retried) aborts that
same iteration with the cleanup error, with no soft reset — the attempt
marker stays truthy and the fresh transport and application handles opened
before `getPublicKey` threw survive on the session. -/
theorem C2_u2f_aborts_with_cleanup_error_witness :
    connectLoop true "44\x27/148\x27/0\x27"
      [.publicKeyFailed ⟨"u2f", some "U2FNotSupported"⟩ 26000]
      ⟨{}, true, 0⟩ =
    .thrown (cleanupError true)
      ⟨{ transport := some 0, application := some 1 }, true, 2⟩ := by
  rw [(C2_u2f_aborts_with_cleanup_error true "44\x27/148\x27/0\x27"
    (.publicKeyFailed ⟨"u2f", some "U2FNotSupported"⟩ 26000) []
    ⟨{}, true, 0⟩ ⟨"u2f", some "U2FNotSupported"⟩ 26000 rfl rfl rfl rfl).1]
  rfl

/-- C8: the liveness monitor.  (1) In a cycle that runs (the keyed handle
still matches), the liveness flag is cleared and the cycle triggers
`disconnect()` exactly when the refresh neither succeeded nor failed with the
device-busy-signing error within the wait; (2) when such a cycle concludes
the device is gone, `disconnect()` has really run (the `isPolling` guard is
down afterwards); (3) the loop terminates immediately, running no cycle, as
soon as the session's application handle differs from the one it was keyed
to; (4) a new monitor is started by `onConnect` exactly when no monitor is
active, which keeps at most one loop active in this cooperative model; and
(5) the wait between refresh and check is the fixed 1000 ms interval. -/
theorem C8_liveness_monitor (keyed : Option Nat)
    (env : Option RefreshOutcome) (rest envs : List (Option RefreshOutcome))
    (s : PollState) :
    (s.ledger.application = keyed →
      (polling keyed (env :: rest) s).2.head? = some (!cyclePing env))
  ∧ (s.ledger.application = keyed → cyclePing env = false →
      (polling keyed [env] s).1.isPolling = false)
  ∧ (s.ledger.application ≠ keyed →
      polling keyed (env :: rest) s = (s, []))
  ∧ (startPolling envs s).2.2 = !s.isPolling
  ∧ pollingDelay = 1000 := by
  have hping : ∀ h : s.ledger.application = keyed,
      (match env with
        | some o => refreshAppConfiguration o { s with ping := false }
        | none => { s with ping := false }).ping = cyclePing env := by
    intro h
    cases env with
    | none => rfl
    | some o =>
      cases o with
      | ok ver mo => rfl
      | err lock =>
        by_cases hl : lock = some "signTransaction" <;>
          simp [refreshAppConfiguration, cyclePing, hl]
  refine ⟨fun h => ?_, fun h hdead => ?_, fun h => ?_, ?_, rfl⟩
  · simp [polling, h, hping h]
  · have hp := hping h
    rw [hdead] at hp
    cases env with
    | none =>
      simp only [polling, h, if_pos, hp]
      simp [disconnectP, polling]
      cases hm : s.ledger.transport <;> simp [hm]
    | some o =>
      cases o with
      | ok ver mo => simp [cyclePing] at hdead
      | err lock =>
        have hl : ¬ lock = some "signTransaction" := by
          by_contra hc
          simp [cyclePing, hc] at hdead
        simp only [polling, h, if_pos, refreshAppConfiguration, hl]
        simp [disconnectP, polling, refreshAppConfiguration, hl]
        cases hm : s.ledger.transport <;> simp [hm]
  · simp [polling, h]
  · by_cases hp : s.isPolling <;> simp [startPolling, hp]

/-- C8, instantiated: a connected session whose refresh stalls for a full
interval gets disconnected in that cycle, and `onConnect` on a non-polling
state starts the (single) monitor. -/
theorem C8_liveness_monitor_witness :
    (polling (some 1) [none]
      { ledger := { transport := some 0, application := some 1 } }).2.head? =
        some true
  ∧ (polling (some 1) [none]
      { ledger := { transport := some 0, application := some 1 },
        isPolling := true }).1.isPolling = false
  ∧ (startPolling []
      { ledger := { transport := some 0, application := some 1 } }).2.2 =
        true := by
  refine ⟨?_, ?_, ?_⟩
  · exact (C8_liveness_monitor (some 1) none [] []
      { ledger := { transport := some 0, application := some 1 } }).1 rfl
  · exact (C8_liveness_monitor (some 1) none [] []
      { ledger := { transport := some 0, application := some 1 },
        isPolling := true }).2.1 rfl rfl
  · exact (C8_liveness_monitor (some 1) none [] []
      { ledger := { transport := some 0, application := some 1 } }).2.2.2.1

end LedgerWallet
